import Mathlib

/-!
Verification of the `useApolloQuery` composable (the Query Adapter) of the
aspire-commit-leaderboard-ui repository.

The adapter wraps a GraphQL client's `watchQuery`/`subscribe` API: on
construction it resolves the effective variables, builds a watch-query
request configuration, subscribes once to the resulting observable query,
exposes a reactive Result Snapshot (result, loading, error) updated from the
subscription's `next`/`error` callbacks, registers a deep watch on a
reactive variables reference (pushing changes via `setVariables`), exposes a
`refetch` operation delegating to the observable query, and on unmount
unsubscribes and stops polling.

The embedding below follows the final (Apollo Client 4.x) source of the
composable: the `getVariables` helper, the conditional construction of the
watch-query options (the `pollInterval` field is included only when defined),
the `dataState === 'complete' || dataState === 'streaming'` gate in the
`next` callback, the `error` callback, the `refetch` wrapper, the
`'value' in options.vars` ref detection guarding the variables watch,
and the `onUnmounted` cleanup.  The dynamic behaviour is modelled as a state
machine: `initAdapter` is construction, `step` processes one runtime event
(an emission, a terminal error, a watched-variables change, a refetch call,
the resolution of a refetch promise, or unmount), and `eventAllowed` encodes
the environment's contract (rxjs delivers tagged emissions only for issued
fetches, a refetch promise resolves only after its result was delivered
through the subscription, a component unmounts once).
-/

namespace LeaderboardQueryAdapter

/-- A JavaScript value, as far as the composable inspects one: `undefined`,
a string, a number, or a plain object (a list of key/value fields). -/
inductive JSValue where
  | undef : JSValue
  | str : String → JSValue
  | num : Int → JSValue
  | obj : List (String × JSValue) → JSValue

/-- JavaScript falsiness, restricted to the values of `JSValue`
(`undefined`, `""` and `0` are falsy; every object is truthy). -/
def jsFalsy : JSValue → Bool
  | JSValue.undef => true
  | JSValue.str s => s == ""
  | JSValue.num n => n == 0
  | JSValue.obj _ => false

/-- `typeof v === 'object'` for a `JSValue`. -/
def JSValue.isObjectType : JSValue → Bool
  | JSValue.obj _ => true
  | _ => false

/-- The JavaScript `'k' in v` test (membership of a key in an object). -/
def JSValue.hasKey : JSValue → String → Bool
  | JSValue.obj fs, k => fs.any (fun p => p.1 == k)
  | _, _ => false

/-- Property access `v.k`: the first field named `k`, `undefined` when the
key is absent or the value is not an object. -/
def JSValue.getKey : JSValue → String → JSValue
  | JSValue.obj fs, k =>
      (match fs.find? (fun p => p.1 == k) with
        | some p => p.2
        | none => JSValue.undef)
  | _, _ => JSValue.undef

/-- `v !== undefined`. -/
def JSValue.isDefined : JSValue → Bool
  | JSValue.undef => false
  | _ => true

/-- The five watch-query fetch policies accepted by `UseQueryOptions`. -/
inductive FetchPolicy where
  | cacheFirst : FetchPolicy
  | cacheOnly : FetchPolicy
  | networkOnly : FetchPolicy
  | noCache : FetchPolicy
  | cacheAndNetwork : FetchPolicy
deriving DecidableEq

/-- Apollo Client 4.x `dataState` of an emission: `'empty'`, `'partial'`
(modelled by `partialData`), `'streaming'`, `'complete'`. -/
inductive DataState where
  | empty : DataState
  | partialData : DataState
  | streaming : DataState
  | complete : DataState
deriving DecidableEq

/-- The options record accepted by `useApolloQuery`.  `variables` holds the
JavaScript value passed in the `variables` field (`undef` when the field was
not supplied); a Vue ref is, structurally, an object with a `value` key.
`pollInterval` and `fetchPolicy` are `none` when not supplied. -/
structure UseQueryOptions where
  vars : JSValue := JSValue.undef
  pollInterval : Option Nat := none
  fetchPolicy : Option FetchPolicy := none

/-- The request configuration handed to `client.watchQuery`.
`pollIntervalField` distinguishes an absent field (`none`) from a field that
is present with the JavaScript value `undefined` (`some none`) and from a
field present with a number (`some (some p)`). -/
structure WatchQueryOptions where
  query : Nat
  vars : JSValue
  fetchPolicy : FetchPolicy
  pollIntervalField : Option (Option Nat)

/-- One emission delivered to the subscription's `next` callback: the
loading flag, the (possibly absent) data, the per-emission error field and
the data-state indicator. -/
structure Emission where
  loading : Bool
  data : JSValue
  error : Option String
  dataState : DataState

/-- `getVariables` from the composable: `undefined` when `options.vars`
is falsy, the `value` property when the variables look like a ref (an object
with a `value` key), the variables value itself otherwise. -/
def getVariables (options : UseQueryOptions) : JSValue :=
  if jsFalsy options.vars then JSValue.undef
  else if options.vars.isObjectType && options.vars.hasKey "value" then
    options.vars.getKey "value"
  else options.vars

/-- The watch-query request configuration the composable builds:
`fetchPolicy` is `options.fetchPolicy || 'cache-first'`, `variables` is
`getVariables()`, and the `pollInterval` field is included only when
`options.pollInterval` is defined (the two explicit `client.watchQuery`
call sites of the source). -/
def buildWatchQueryOptions (query : Nat) (options : UseQueryOptions) : WatchQueryOptions :=
  let fetchPolicy := options.fetchPolicy.getD FetchPolicy.cacheFirst
  let vars := getVariables options
  match options.pollInterval with
  | some p =>
      { query := query, vars := vars, fetchPolicy := fetchPolicy
        pollIntervalField := some (some p) }
  | none =>
      { query := query, vars := vars, fetchPolicy := fetchPolicy
        pollIntervalField := none }

/-- The guard of the variables watch: `varsOption && typeof varsOption ===
'object' && 'value' in varsOption` — the composable registers a deep watch
exactly when this holds. -/
def hasVariablesWatch (options : UseQueryOptions) : Bool :=
  !jsFalsy options.vars
    && options.vars.isObjectType
    && options.vars.hasKey "value"

/-- The state of the underlying `ObservableQuery` handle, as far as the
composable drives it: the request configuration it was created from, its
current variables (updated by `setVariables`), whether polling is active,
and how many forced network fetches (`refetch`) were issued on it. -/
structure ObservableQueryState where
  config : WatchQueryOptions
  vars : JSValue
  polling : Bool
  fetchCount : Nat

/-- The full state of one adapter instance: the Result Snapshot (`result`,
`loading`, `error`), the observable-query handle, subscription bookkeeping
(`subscribeCalls` counts calls to `subscribe`, `subscribed` is the live
subscription, `subscriptionId` its identity), whether the variables watch
was registered, whether `onUnmounted` ran, and refetch bookkeeping
(`pendingFetches` are issued fetch ids, `deliveredFetches` the ids whose
result was delivered through the `next` callback, `resolvedFetches` the ids
whose `refetch()` promise resolved). -/
structure AdapterState where
  result : JSValue
  loading : Bool
  error : Option String
  observableQuery : Option ObservableQueryState
  subscribeCalls : Nat
  subscribed : Bool
  subscriptionId : Nat
  watchRegistered : Bool
  unmounted : Bool
  pendingFetches : List Nat
  deliveredFetches : List Nat
  resolvedFetches : List Nat
  nextFetchId : Nat

/-- Construction of the adapter (the body of `useApolloQuery` up to its
return): snapshot initialised to `(undefined, true, undefined)`, the
observable query created from the built configuration (polling active
exactly when a poll interval was supplied), exactly one `subscribe` call,
and the variables watch registered iff the ref-detection guard holds. -/
def initAdapter (query : Nat) (options : UseQueryOptions) : AdapterState :=
  let cfg := buildWatchQueryOptions query options
  { result := JSValue.undef
    loading := true
    error := none
    observableQuery := some
      { config := cfg, vars := cfg.vars
        polling := options.pollInterval.isSome, fetchCount := 0 }
    subscribeCalls := 1
    subscribed := true
    subscriptionId := 0
    watchRegistered := hasVariablesWatch options
    unmounted := false
    pendingFetches := []
    deliveredFetches := []
    resolvedFetches := []
    nextFetchId := 0 }

/-- A runtime event of one adapter instance.  `next` carries an optional tag
naming the forced fetch the emission is tied to; `refetchResolve` is the
resolution of the promise returned by `refetch()` for that fetch. -/
inductive Event where
  | next : Emission → Option Nat → Event
  | terminalError : String → Event
  | varsChange : JSValue → Event
  | refetchCall : Event
  | refetchResolve : Nat → Event
  | unmount : Event

/-- The subscription's `next` callback, together with the rxjs delivery
rule: an unsubscribed subscription invokes no handler.  When delivered, the
callback sets `loading` from the emission, sets `result` from the emission's
data exactly when `dataState === 'complete' || dataState === 'streaming'`
(and to `undefined` otherwise), and sets `error` from the emission's error
field; the model additionally records a tagged fetch as delivered. -/
def applyNext (s : AdapterState) (e : Emission) (tag : Option Nat) : AdapterState :=
  if s.subscribed then
    { s with
      loading := e.loading
      result :=
        if e.dataState == DataState.complete || e.dataState == DataState.streaming then
          e.data
        else JSValue.undef
      error := e.error
      pendingFetches :=
        (match tag with
          | some fid => s.pendingFetches.erase fid
          | none => s.pendingFetches)
      deliveredFetches :=
        (match tag with
          | some fid => fid :: s.deliveredFetches
          | none => s.deliveredFetches) }
  else s

/-- One step of the adapter's runtime.  `terminalError` is the
subscription's `error` callback (sets `loading := false` and `error`);
`varsChange` is the deep watch's callback (guarded by `observableQuery &&
newVariables !== undefined`, it calls `setVariables`, changing nothing but
the observable query's variables); `refetchCall` is the `refetch` wrapper
(the non-null branch awaits `observableQuery.refetch()`, issuing a fetch);
`refetchResolve` records that a refetch promise resolved; `unmount` is the
`onUnmounted` cleanup (unsubscribe, then `stopPolling`). -/
def step (s : AdapterState) : Event → AdapterState
  | Event.next e tag => applyNext s e tag
  | Event.terminalError err =>
      if s.subscribed then { s with loading := false, error := some err } else s
  | Event.varsChange v =>
      if s.watchRegistered then
        match s.observableQuery with
        | some oq =>
            if v.isDefined then
              { s with observableQuery := some { oq with vars := v } }
            else s
        | none => s
      else s
  | Event.refetchCall =>
      (match s.observableQuery with
        | some oq =>
            { s with
              observableQuery := some { oq with fetchCount := oq.fetchCount + 1 }
              pendingFetches := s.nextFetchId :: s.pendingFetches
              nextFetchId := s.nextFetchId + 1 }
        | none => s)
  | Event.refetchResolve fid => { s with resolvedFetches := fid :: s.resolvedFetches }
  | Event.unmount =>
      { s with
        subscribed := false
        observableQuery :=
          (match s.observableQuery with
            | some oq => some { oq with polling := false }
            | none => none)
        unmounted := true }

/-- The environment's contract: a tagged emission only for a fetch that was
issued and not yet delivered; the variables watch fires only while it is
registered and the component is mounted; a refetch promise resolves only
after its fetch's result was delivered through the subscription, and at most
once; a component unmounts once. -/
def eventAllowed (s : AdapterState) : Event → Bool
  | Event.next _ tag =>
      (match tag with
        | some fid => decide (fid ∈ s.pendingFetches)
        | none => true)
  | Event.terminalError _ => true
  | Event.varsChange _ => s.watchRegistered && !s.unmounted
  | Event.refetchCall => true
  | Event.refetchResolve fid =>
      decide (fid ∈ s.deliveredFetches) && !decide (fid ∈ s.resolvedFetches)
  | Event.unmount => !s.unmounted

/-- A list of events is a valid run from `s`: each event is allowed in the
state it is processed in. -/
def validFrom (s : AdapterState) : List Event → Bool
  | [] => true
  | ev :: evs => eventAllowed s ev && validFrom (step s ev) evs

/-- The state after processing a list of events. -/
def run (s : AdapterState) : List Event → AdapterState
  | [] => s
  | ev :: evs => run (step s ev) evs

/-- The number of live subscriptions held by the adapter. -/
def liveSubscriptions (s : AdapterState) : Nat :=
  if s.subscribed then 1 else 0

/-- Whether the observable query is currently polling. -/
def pollingActive (s : AdapterState) : Bool :=
  match s.observableQuery with
  | some oq => oq.polling
  | none => false

/-- The number of forced network fetches issued on the observable query. -/
def queryFetchCount (s : AdapterState) : Nat :=
  match s.observableQuery with
  | some oq => oq.fetchCount
  | none => 0

/-- The adapter's runtime invariant: `subscribe` was called exactly once;
the live subscription is active exactly while the component is mounted;
the observable-query handle is never null; polling is off after unmount;
and every resolved refetch was delivered through the subscription. -/
def Inv (s : AdapterState) : Prop :=
  s.subscribeCalls = 1
    ∧ s.subscribed = !s.unmounted
    ∧ s.observableQuery.isSome = true
    ∧ (s.unmounted = true → pollingActive s = false)
    ∧ (∀ fid, fid ∈ s.resolvedFetches → fid ∈ s.deliveredFetches)

/-- Example options: none of the three option fields supplied. -/
def exOptions : UseQueryOptions := {}

/-- A reactive variables reference (structurally: an object with a `value`
key) holding the variables `{repo: "a"}`. -/
def exRefVars : JSValue :=
  JSValue.obj [("value", JSValue.obj [("repo", JSValue.str "a")])]

/-- Example options whose variables were supplied as a reactive reference. -/
def exRefOptions : UseQueryOptions := { vars := exRefVars }

/-- A static (non-reactive) variables object that happens to contain a
property named `value`. -/
def exStaticValueObj : JSValue :=
  JSValue.obj [("value", JSValue.num 5), ("repo", JSValue.str "a")]

/-- Example options built from `exStaticValueObj`. -/
def exStaticValueOptions : UseQueryOptions := { vars := exStaticValueObj }

/-- An emission with complete data and no error. -/
def exCompleteEmission : Emission :=
  { loading := false, data := JSValue.num 7, error := none
    dataState := DataState.complete }

/-- An emission whose data-state reports partial data. -/
def exPartialEmission : Emission :=
  { loading := true, data := JSValue.num 8, error := none
    dataState := DataState.partialData }

/-- An emission carrying a per-emission error. -/
def exErrorEmission : Emission :=
  { loading := false, data := JSValue.undef, error := some "E1"
    dataState := DataState.empty }

/-- A later emission with complete data and an empty error field. -/
def exClearEmission : Emission :=
  { loading := false, data := JSValue.num 9, error := none
    dataState := DataState.complete }

/-- A run that calls `refetch`, receives the fetch's result through the
subscription, and then resolves the refetch promise. -/
def exRefetchTrace : List Event :=
  [Event.refetchCall, Event.next exCompleteEmission (some 0), Event.refetchResolve 0]

/-- The observable-query handle created by `initAdapter 0 exRefOptions`. -/
def exRefObsQuery : ObservableQueryState :=
  { config := buildWatchQueryOptions 0 exRefOptions
    vars := (buildWatchQueryOptions 0 exRefOptions).vars
    polling := false
    fetchCount := 0 }

/-- A new variables value pushed through the reactive reference. -/
def exNewVars : JSValue := JSValue.obj [("repo", JSValue.str "b")]

/-- The adapter state after an emission carrying a per-emission error. -/
def exAfterError : AdapterState :=
  step (initAdapter 0 exOptions) (Event.next exErrorEmission none)

/-- The invariant holds at construction. -/
theorem inv_init (q : Nat) (opts : UseQueryOptions) : Inv (initAdapter q opts) := by
  refine ⟨rfl, rfl, rfl, ?_, ?_⟩
  · intro h
    simp [initAdapter] at h
  · intro fid h
    simp [initAdapter] at h

/-- The invariant is preserved by every allowed event. -/
theorem inv_step {s : AdapterState} {ev : Event} (h : Inv s)
    (ha : eventAllowed s ev = true) : Inv (step s ev) := by
  obtain ⟨h1, h2, h3, h4, h5⟩ := h
  cases ev with
  | next e tag =>
      show Inv (applyNext s e tag)
      unfold applyNext
      cases hsub : s.subscribed with
      | false => exact ⟨h1, h2, h3, h4, h5⟩
      | true =>
          simp only [if_true]
          refine ⟨h1, hsub.symm.trans h2, h3, h4, ?_⟩
          intro fid hm
          cases tag with
          | none => exact h5 fid hm
          | some fid2 => exact List.mem_cons_of_mem _ (h5 fid hm)
  | terminalError err =>
      show Inv (if s.subscribed then _ else s)
      cases hsub : s.subscribed with
      | false => exact ⟨h1, h2, h3, h4, h5⟩
      | true =>
          simp only [if_true]
          exact ⟨h1, hsub.symm.trans h2, h3, h4, h5⟩
  | varsChange v =>
      show Inv (if s.watchRegistered then _ else s)
      cases hw : s.watchRegistered with
      | false => exact ⟨h1, h2, h3, h4, h5⟩
      | true =>
          simp only [if_true]
          cases hobs : s.observableQuery with
          | none => exact ⟨h1, h2, h3, h4, h5⟩
          | some oq =>
              cases hdef : v.isDefined with
              | false => exact ⟨h1, h2, h3, h4, h5⟩
              | true =>
                  simp only [if_true]
                  refine ⟨h1, h2, rfl, ?_, h5⟩
                  intro hu
                  have := h4 hu
                  simp only [pollingActive, hobs] at this ⊢
                  exact this
  | refetchCall =>
      show Inv
        (match s.observableQuery with
          | some oq =>
              { s with
                observableQuery := some { oq with fetchCount := oq.fetchCount + 1 }
                pendingFetches := s.nextFetchId :: s.pendingFetches
                nextFetchId := s.nextFetchId + 1 }
          | none => s)
      cases hobs : s.observableQuery with
      | none => exact ⟨h1, h2, h3, h4, h5⟩
      | some oq =>
          refine ⟨h1, h2, rfl, ?_, h5⟩
          intro hu
          have := h4 hu
          simp only [pollingActive, hobs] at this ⊢
          exact this
  | refetchResolve fid =>
      simp only [eventAllowed, Bool.and_eq_true, decide_eq_true_eq,
        Bool.not_eq_true', decide_eq_false_iff_not] at ha
      refine ⟨h1, h2, h3, h4, ?_⟩
      intro fid2 hm
      rcases List.mem_cons.mp hm with heq | hmem
      · exact heq ▸ ha.1
      · exact h5 fid2 hmem
  | unmount =>
      refine ⟨h1, rfl, ?_, ?_, h5⟩
      · cases hobs : s.observableQuery with
        | none => rw [hobs] at h3; exact absurd h3 (by simp)
        | some oq => simp [step, hobs]
      · intro _
        cases hobs : s.observableQuery with
        | none => simp [step, pollingActive, hobs]
        | some oq => simp [step, pollingActive, hobs]

/-- The invariant holds after any valid run. -/
theorem inv_run {s : AdapterState} {evs : List Event} (h : Inv s)
    (hv : validFrom s evs = true) : Inv (run s evs) := by
  induction evs generalizing s with
  | nil => simpa [run] using h
  | cons ev evs ih =>
      simp only [validFrom, Bool.and_eq_true] at hv
      exact ih (inv_step h hv.1) hv.2

/-- C1: for every adapter instance, exactly one Live Subscription exists
from construction until teardown and zero afterward: construction calls
`subscribe` exactly once (`subscribeCalls = 1` in every reachable state),
the unmount handler unsubscribes the subscription and stops polling, and
after teardown no emission handler fires again — processing a `next` or an
`error` event in a torn-down state leaves the state unchanged. -/
theorem single_live_subscription_per_adapter (q : Nat) (opts : UseQueryOptions)
    (evs : List Event) (s : AdapterState)
    (hv : validFrom (initAdapter q opts) evs = true)
    (hs : s = run (initAdapter q opts) evs) :
    s.subscribeCalls = 1
      ∧ (s.unmounted = false → liveSubscriptions s = 1)
      ∧ (s.unmounted = true → liveSubscriptions s = 0 ∧ pollingActive s = false)
      ∧ ((step s Event.unmount).subscribed = false
          ∧ pollingActive (step s Event.unmount) = false)
      ∧ (∀ e tag, s.unmounted = true → step s (Event.next e tag) = s)
      ∧ (∀ err, s.unmounted = true → step s (Event.terminalError err) = s) := by
  have h := inv_run (inv_init q opts) hv
  rw [← hs] at h
  obtain ⟨h1, h2, h3, h4, h5⟩ := h
  refine ⟨h1, ?_, ?_, ⟨?_, ?_⟩, ?_, ?_⟩
  · intro hu
    simp [liveSubscriptions, h2, hu]
  · intro hu
    exact ⟨by simp [liveSubscriptions, h2, hu], h4 hu⟩
  · simp [step]
  · cases hobs : s.observableQuery with
    | none => simp [step, pollingActive, hobs]
    | some oq => simp [step, pollingActive, hobs]
  · intro e tag hu
    have hsub : s.subscribed = false := by rw [h2, hu]; rfl
    simp [step, applyNext, hsub]
  · intro err hu
    have hsub : s.subscribed = false := by rw [h2, hu]; rfl
    simp [step, hsub]

/-- Witness for C1: after construction and an unmount, `subscribe` was
called exactly once, zero live subscriptions remain and polling is off. -/
theorem single_live_subscription_per_adapter_witness :
    (run (initAdapter 0 exOptions) [Event.unmount]).subscribeCalls = 1
      ∧ liveSubscriptions (run (initAdapter 0 exOptions) [Event.unmount]) = 0
      ∧ pollingActive (run (initAdapter 0 exOptions) [Event.unmount]) = false := by
  have h := single_live_subscription_per_adapter 0 exOptions [Event.unmount] _ (by decide) rfl
  exact ⟨h.1, (h.2.2.1 (by decide)).1, (h.2.2.1 (by decide)).2⟩

/-- C2: for every emission delivered through the subscription's `next`
callback, the adapter sets the Result Snapshot's `result` from the
emission's data exactly when the emission's `dataState` is `'complete'` or
`'streaming'`, and sets it to `undefined` for every other data-state. -/
theorem next_emission_gates_data_on_dataState (s : AdapterState) (e : Emission)
    (tag : Option Nat) (hsub : s.subscribed = true) :
    (step s (Event.next e tag)).result =
      (if e.dataState == DataState.complete || e.dataState == DataState.streaming
        then e.data else JSValue.undef) := by
  simp [step, applyNext, hsub]

/-- Witness for C2: a complete emission's data is surfaced, a
partial-data emission clears the result to `undefined`. -/
theorem next_emission_gates_data_on_dataState_witness :
    (step (initAdapter 0 exOptions) (Event.next exCompleteEmission none)).result = JSValue.num 7
      ∧ (step (initAdapter 0 exOptions) (Event.next exPartialEmission none)).result
          = JSValue.undef := by
  have h1 := next_emission_gates_data_on_dataState (initAdapter 0 exOptions)
    exCompleteEmission none rfl
  have h2 := next_emission_gates_data_on_dataState (initAdapter 0 exOptions)
    exPartialEmission none rfl
  exact ⟨h1.trans rfl, h2.trans rfl⟩

/-- C3: the request configuration passed to `client.watchQuery` carries no
`pollInterval` field at all when no poll interval was supplied (the field
is `none`, never `some none`, i.e. never present with an `undefined`
value), and carries the supplied value when one was supplied (`some p`
becomes the present field `some (some p)`). -/
theorem watchQuery_pollInterval_field_matches_option (q : Nat) (opts : UseQueryOptions) :
    (buildWatchQueryOptions q opts).pollIntervalField =
      Option.map (fun p => some p) opts.pollInterval := by
  cases h : opts.pollInterval with
  | none => simp [buildWatchQueryOptions, h]
  | some p => simp [buildWatchQueryOptions, h]

/-- C4: when the variables were supplied as a reactive reference (the
watch is registered), a change of the reference's value pushes the new
variables into the existing observable query via `setVariables` and
changes nothing else: the whole post-state is the pre-state with only the
observable query's variables replaced, so no second subscription is
created, the subscription is not torn down, and the subscription handle's
identity is unchanged. -/
theorem vars_change_uses_setVariables_only (s : AdapterState) (v : JSValue)
    (oq : ObservableQueryState) (hw : s.watchRegistered = true)
    (hq : s.observableQuery = some oq) (hd : v.isDefined = true) :
    step s (Event.varsChange v) = { s with observableQuery := some { oq with vars := v } }
      ∧ (step s (Event.varsChange v)).subscribeCalls = s.subscribeCalls
      ∧ (step s (Event.varsChange v)).subscribed = s.subscribed
      ∧ (step s (Event.varsChange v)).subscriptionId = s.subscriptionId := by
  have h : step s (Event.varsChange v) =
      { s with observableQuery := some { oq with vars := v } } := by
    simp [step, hw, hq, hd]
  exact ⟨h, by rw [h], by rw [h], by rw [h]⟩

/-- Witness for C4: pushing `{repo: "b"}` through the watched reference of
a freshly constructed adapter only replaces the observable query's
variables. -/
theorem vars_change_uses_setVariables_only_witness :
    step (initAdapter 0 exRefOptions) (Event.varsChange exNewVars)
      = { initAdapter 0 exRefOptions with
          observableQuery := some { exRefObsQuery with vars := exNewVars } } := by
  exact (vars_change_uses_setVariables_only (initAdapter 0 exRefOptions) exNewVars
    exRefObsQuery (by decide) rfl (by decide)).1

/-- C5: a `refetch()` promise resolves only after the fetch's result has
been delivered through the subscription's `next` callback (in every valid
run, every resolved fetch id is a delivered fetch id), and no refetch-side
step writes the Result Snapshot: calling `refetch` and resolving its
promise leave `result`, `loading` and `error` unchanged, while the
delivery step itself is what updates the snapshot from the emission. -/
theorem refetch_resolves_only_after_delivery (q : Nat) (opts : UseQueryOptions)
    (evs : List Event) (s : AdapterState)
    (hv : validFrom (initAdapter q opts) evs = true)
    (hs : s = run (initAdapter q opts) evs) :
    (∀ fid, fid ∈ s.resolvedFetches → fid ∈ s.deliveredFetches)
      ∧ (∀ t : AdapterState,
          (step t Event.refetchCall).result = t.result
            ∧ (step t Event.refetchCall).loading = t.loading
            ∧ (step t Event.refetchCall).error = t.error)
      ∧ (∀ (t : AdapterState) (fid : Nat),
          (step t (Event.refetchResolve fid)).result = t.result
            ∧ (step t (Event.refetchResolve fid)).loading = t.loading
            ∧ (step t (Event.refetchResolve fid)).error = t.error)
      ∧ (∀ (t : AdapterState) (e : Emission) (fid : Nat), t.subscribed = true →
          (step t (Event.next e (some fid))).deliveredFetches = fid :: t.deliveredFetches
            ∧ (step t (Event.next e (some fid))).error = e.error
            ∧ (step t (Event.next e (some fid))).loading = e.loading) := by
  have h := inv_run (inv_init q opts) hv
  rw [← hs] at h
  refine ⟨h.2.2.2.2, ?_, ?_, ?_⟩
  · intro t
    cases hobs : t.observableQuery with
    | none => simp [step, hobs]
    | some oq => simp [step, hobs]
  · intro t fid
    simp [step]
  · intro t e fid hsub
    refine ⟨?_, ?_, ?_⟩ <;> simp [step, applyNext, hsub]

/-- Witness for C5: in the run that refetches, receives the tagged
emission and then resolves, the resolved fetch 0 was delivered. -/
theorem refetch_resolves_only_after_delivery_witness :
    0 ∈ (run (initAdapter 0 exOptions) exRefetchTrace).resolvedFetches
      ∧ 0 ∈ (run (initAdapter 0 exOptions) exRefetchTrace).deliveredFetches := by
  have h := refetch_resolves_only_after_delivery 0 exOptions exRefetchTrace _ (by decide) rfl
  exact ⟨by decide, h.1 0 (by decide)⟩

/-- C6: a terminal subscription error delivered while the subscription is
live sets `loading` to `false` and `error` to the received error and
changes nothing else of the adapter state (in particular `result` is kept
and no fetch is issued: no automatic retry). -/
theorem terminal_error_sets_snapshot_without_retry (s : AdapterState) (err : String)
    (hsub : s.subscribed = true) :
    step s (Event.terminalError err) = { s with loading := false, error := some err } := by
  simp [step, hsub]

/-- Witness for C6, the spec's scenario: a terminal error with no prior
data emission yields the final snapshot `loading = false`, `data` empty,
`error` set to the received error. -/
theorem terminal_error_sets_snapshot_without_retry_witness :
    (step (initAdapter 0 exOptions) (Event.terminalError "network")).loading = false
      ∧ (step (initAdapter 0 exOptions) (Event.terminalError "network")).result = JSValue.undef
      ∧ (step (initAdapter 0 exOptions) (Event.terminalError "network")).error
          = some "network" := by
  have h := terminal_error_sets_snapshot_without_retry (initAdapter 0 exOptions) "network" rfl
  rw [h]
  exact ⟨rfl, rfl, rfl⟩

/-- C7: the request configuration passed to `client.watchQuery` uses the
fetch policy `'cache-first'` when none was supplied, and forwards the
supplied policy unchanged otherwise (`Option.getD` is exactly
`options.fetchPolicy || 'cache-first'` over the five truthy policies). -/
theorem watchQuery_fetchPolicy_defaults_cache_first (q : Nat) (opts : UseQueryOptions) :
    (buildWatchQueryOptions q opts).fetchPolicy =
      opts.fetchPolicy.getD FetchPolicy.cacheFirst := by
  cases h : opts.pollInterval with
  | none => simp [buildWatchQueryOptions, h]
  | some p => simp [buildWatchQueryOptions, h]

/-- C8: a static variables object that happens to contain a property named
`value` is misclassified as a reactive reference: the configuration passed
to `watchQuery` carries the object's `value` property (not the object
itself), and the adapter registers the change-watch on it, because
ref-detection is the structural test `typeof v === 'object' && 'value' in
v`. -/
theorem static_object_with_value_key_treated_as_ref (opts : UseQueryOptions)
    (fields : List (String × JSValue)) (q : Nat)
    (hv : opts.vars = JSValue.obj fields)
    (hk : JSValue.hasKey (JSValue.obj fields) "value" = true) :
    (buildWatchQueryOptions q opts).vars = JSValue.getKey (JSValue.obj fields) "value"
      ∧ hasVariablesWatch opts = true
      ∧ (initAdapter q opts).watchRegistered = true := by
  have hw : hasVariablesWatch opts = true := by
    simp [hasVariablesWatch, hv, jsFalsy, JSValue.isObjectType, hk]
  refine ⟨?_, hw, hw⟩
  cases hpoll : opts.pollInterval with
  | none =>
      simp [buildWatchQueryOptions, getVariables, hv, jsFalsy, JSValue.isObjectType, hk, hpoll]
  | some p =>
      simp [buildWatchQueryOptions, getVariables, hv, jsFalsy, JSValue.isObjectType, hk, hpoll]

/-- Witness for C8: the static object `{value: 5, repo: "a"}` is passed to
`watchQuery` as the variables value `5`, and the change-watch is
registered on it. -/
theorem static_object_with_value_key_treated_as_ref_witness :
    (buildWatchQueryOptions 0 exStaticValueOptions).vars = JSValue.num 5
      ∧ hasVariablesWatch exStaticValueOptions = true := by
  have h := static_object_with_value_key_treated_as_ref exStaticValueOptions
    [("value", JSValue.num 5), ("repo", JSValue.str "a")] 0 rfl (by decide)
  exact ⟨h.1.trans rfl, h.2.1⟩

/-- C9: the observable-query handle is assigned exactly once at
construction and is never reset to null in any reachable state, so the
null-check inside `refetch` always takes the non-null branch: stepping a
`refetch` call from any reachable state — including a torn-down one —
issues one more forced fetch on the underlying observable query. -/
theorem observableQuery_never_null_refetch_after_teardown (q : Nat)
    (opts : UseQueryOptions) (evs : List Event) (s : AdapterState)
    (hv : validFrom (initAdapter q opts) evs = true)
    (hs : s = run (initAdapter q opts) evs) :
    s.observableQuery.isSome = true
      ∧ queryFetchCount (step s Event.refetchCall) = queryFetchCount s + 1
      ∧ (step s Event.refetchCall).pendingFetches = s.nextFetchId :: s.pendingFetches
      ∧ (s.unmounted = true →
          queryFetchCount (step s Event.refetchCall) = queryFetchCount s + 1) := by
  have h := inv_run (inv_init q opts) hv
  rw [← hs] at h
  obtain ⟨h1, h2, h3, h4, h5⟩ := h
  cases hobs : s.observableQuery with
  | none => rw [hobs] at h3; exact absurd h3 (by simp)
  | some oq =>
      refine ⟨rfl, ?_, ?_, ?_⟩
      · simp [step, queryFetchCount, hobs]
      · simp [step, hobs]
      · intro _
        simp [step, queryFetchCount, hobs]

/-- Witness for C9: after teardown (`unmount`), the handle is still
non-null and a `refetch` call still issues a network fetch. -/
theorem observableQuery_never_null_refetch_after_teardown_witness :
    (run (initAdapter 0 exOptions) [Event.unmount]).observableQuery.isSome = true
      ∧ queryFetchCount (step (run (initAdapter 0 exOptions) [Event.unmount]) Event.refetchCall)
          = queryFetchCount (run (initAdapter 0 exOptions) [Event.unmount]) + 1 := by
  have h := observableQuery_never_null_refetch_after_teardown 0 exOptions [Event.unmount]
    _ (by decide) rfl
  exact ⟨h.1, h.2.1⟩

/-- C10: after every emission delivered through the `next` callback, the
Result Snapshot's `error` equals exactly that emission's error field, so a
later emission with an empty error field clears an error recorded by an
earlier emission. -/
theorem next_emission_error_overwrites (s : AdapterState) (e : Emission)
    (tag : Option Nat) (hsub : s.subscribed = true) :
    (step s (Event.next e tag)).error = e.error := by
  simp [step, applyNext, hsub]

/-- Witness for C10: after an emission with error `E1`, a later emission
with an empty error field clears the recorded error. -/
theorem next_emission_error_overwrites_witness :
    exAfterError.error = some "E1"
      ∧ (step exAfterError (Event.next exClearEmission none)).error = none := by
  have h := next_emission_error_overwrites exAfterError exClearEmission none (by decide)
  exact ⟨by decide, h.trans rfl⟩

end LeaderboardQueryAdapter
